import Mathlib

/-!
Verification of the fluvio version-manager download pipeline
(crates/fluvio-artifacts-util/src/fvm/api/{download,client}.rs and
crates/fluvio-version-manager/src/common/update_manager.rs).

The Rust code is shallowly embedded: byte buffers are `List (Fin 256)`,
strings are Lean `String`s manipulated through explicit ASCII helpers that
mirror the `str` methods the source uses, and the external crates the code
calls (`sha2`, `zip`, the GitHub client `octocrab`, `semver` parsing) are
abstracted as function parameters, since their implementations are not part
of this repository.  Filesystem effects are reified in the returned outcome
records (whether the destination file was created, and with which bytes).
-/

set_option autoImplicit false

namespace Fluvio

/-- Raw byte buffers (response bodies, decompressed zip entries). -/
abbrev Bytes := List (Fin 256)

/-! ## String helpers mirroring the `str` methods used by the source -/

/-- Models Rust `str::ends_with` for string patterns. -/
def endsWithStr (s suffix : String) : Bool :=
  suffix.data.isSuffixOf s.data

/-- Models Rust `str::starts_with` / the test of `str::strip_prefix`. -/
def startsWithStr (s pre : String) : Bool :=
  pre.data.isPrefixOf s.data

/-- Models Rust `expected.strip_prefix(pat).unwrap_or(expected)`: remove the
prefix once if present, otherwise return the string unchanged. -/
def stripPrefixOnce (s pat : String) : String :=
  if startsWithStr s pat then ⟨s.data.drop pat.data.length⟩ else s

/-- Fuel-bounded repeated prefix removal over character lists.  With fuel at
least `s.length` this computes the full fixpoint: each successful step removes
at least one character (the pattern is nonempty whenever the step fires), so
when the fuel runs out the remaining list is empty and the pattern (nonempty)
no longer matches anyway. -/
def stripRepPrefixFuel (pat : List Char) : Nat → List Char → List Char
  | 0, s => s
  | fuel + 1, s =>
    if pat ≠ [] ∧ pat.isPrefixOf s = true then
      stripRepPrefixFuel pat fuel (s.drop pat.length)
    else s

/-- Models Rust `str::trim_end_matches`, which removes *all* trailing
repetitions of the pattern (not just one). -/
def trimEndMatchesStr (s pat : String) : String :=
  ⟨(stripRepPrefixFuel pat.data.reverse s.data.length s.data.reverse).reverse⟩

/-- Models Rust `str::trim_start_matches('v')`: drop every leading `v`. -/
def trimStartMatchesV (s : String) : String :=
  ⟨s.data.dropWhile (fun c => c = 'v')⟩

/-- ASCII whitespace recognizer used by the model of `str::trim`. -/
def isAsciiWhitespace (c : Char) : Bool :=
  c = ' ' ∨ c = '\t' ∨ c = '\n' ∨ c = '\r'

/-- Models Rust `str::trim` (restricted to ASCII whitespace, which is all the
digest strings in play can contain). -/
def trimAscii (s : String) : String :=
  ⟨((s.data.dropWhile isAsciiWhitespace).reverse.dropWhile isAsciiWhitespace).reverse⟩

/-- Models Rust `u8::to_ascii_lowercase` lifted to `char`s: map `A`-`Z` to
`a`-`z`, leave everything else alone. -/
def asciiLowerChar (c : Char) : Char :=
  if 65 ≤ c.toNat ∧ c.toNat ≤ 90 then Char.ofNat (c.toNat + 32) else c

/-- Models Rust `str::to_ascii_lowercase`. -/
def asciiLower (s : String) : String :=
  ⟨s.data.map asciiLowerChar⟩

/-- Models Rust `str::contains` for string patterns (substring search). -/
def containsSubstr (s pat : String) : Bool :=
  s.data.tails.any (fun t => pat.data.isPrefixOf t)

/-- Lowercase hex digit, as produced by Rust's `{:x}` formatting. -/
def hexDigit (n : Nat) : Char :=
  Char.ofNat (if n < 10 then 48 + n else 87 + n)

/-- Models `format!("{:x}", hasher.finalize())`: lowercase hex encoding of a
byte string. -/
def hexOfBytes (bs : Bytes) : String :=
  ⟨bs.flatMap (fun b => [hexDigit (b.val / 16), hexDigit (b.val % 16)])⟩

/-! ## Data model (crates/fluvio-artifacts-util/src/fvm) -/

/-- `fvm::Artifact`.  Versions are carried as their rendered `semver` text,
which is all the code under verification ever does with them. -/
structure Artifact where
  name : String
  version : String
  download_url : String
  sha256_digest : Option String
  deriving Repr, DecidableEq

/-- One GitHub release asset (`octocrab::models::repos::Asset`), restricted to
the fields `fetch_package_set` reads. -/
structure ReleaseAsset where
  name : String
  browser_download_url : String
  digest : Option String
  deriving Repr, DecidableEq

/-- One GitHub release (`octocrab::models::repos::Release`), restricted to the
fields the client reads. -/
structure Release where
  tag_name : String
  assets : List ReleaseAsset
  deriving Repr, DecidableEq

/-- `fvm::PackageSet` (the version field is called `pkgset` in the source). -/
structure PackageSet where
  arch : String
  pkgset : String
  artifacts : List Artifact
  deriving Repr, DecidableEq

/-- `fvm::Channel`. -/
inductive Channel where
  | Stable
  | Tag (version : String)
  | Latest
  | Other (name : String)
  deriving Repr, DecidableEq

/-- One entry of a zip archive, as exposed by the `zip` crate: its name, the
bytes it decompresses to, and the uncompressed size declared in its header
(`ZipFile::size`), which a corrupt archive may state incorrectly. -/
structure ZipEntry where
  name : String
  content : Bytes
  declaredSize : Nat
  deriving Repr, DecidableEq

/-- Models `zip::read::ZipFile::is_dir`: an entry is a directory exactly when
its stored name ends with a slash. -/
def ZipEntry.is_dir (e : ZipEntry) : Bool :=
  endsWithStr e.name "/"

/-! ## Errors

Every `Error::msg(...)` site of the embedded code becomes one constructor;
`DlError.render` reproduces the exact message text of the source. -/

inductive DlError where
  | checksumMismatch (artifactName : String)
  | emptyArchive
  | noFileEntries
  | emptyZipEntry
  | sizeMismatch
  | emptyDownload
  | zipOpen (msg : String)
  | statusNotOk (code : Nat) (url : String)
  | invalidStatus (code : Nat)
  deriving Repr, DecidableEq

/-- The exact error text each failure produces in the source. -/
def DlError.render : DlError → String
  | .checksumMismatch n => "DANGER: Downloaded artifact checksum did not match for " ++ n
  | .emptyArchive => "Downloaded zip archive is empty"
  | .noFileEntries => "Downloaded zip archive does not contain any file entries"
  | .emptyZipEntry => "Downloaded zip entry is empty"
  | .sizeMismatch => "Extracted file size does not match zip entry size"
  | .emptyDownload => "Downloaded artifact is empty"
  | .zipOpen msg => msg
  | .statusNotOk code url =>
      "Server responded with Status Code " ++ toString code ++ " for url " ++ url
  | .invalidStatus code => "invalid status code: " ++ toString code

/-! ## ArtifactFetcher (fvm/api/download.rs) -/

deriving instance DecidableEq for Except

/-- The observable outcome of `process_downloaded_bytes` / `download`:
the returned value, and the final state of the destination file
(`none` = `File::create` was never reached, `some bs` = the file exists and
holds `bs`); `treatedAsArchive` records which branch of the format detection
ran. -/
structure DlOutcome where
  result : Except DlError String
  file : Option Bytes
  treatedAsArchive : Bool
  deriving Repr, DecidableEq

/-- `fn is_zip_archive(bytes: &[u8]) -> bool`: the payload starts with the
local-file-header magic `50 4B 03 04`. -/
def is_zip_archive (bytes : Bytes) : Bool :=
  decide (4 ≤ bytes.length) && decide (bytes.take 4 = [80, 75, 3, 4])

/-- `content_type.as_deref().is_some_and(|ct| ct.contains("zip"))`. -/
def isZipContentType (content_type : Option String) : Bool :=
  content_type.any (fun ct => containsSubstr ct "zip")

/-- The checksum gate of `process_downloaded_bytes` as a predicate: trim the
expected digest, strip an optional `sha256:` prefix once, lowercase it, and
compare with the lowercase hex of the hash of the raw body.  `true` when the
gate lets the download proceed (no digest present, or digests equal). -/
def checksum_gate (sha256 : Bytes → Bytes) (artifact : Artifact) (bytes : Bytes) : Bool :=
  match artifact.sha256_digest with
  | none => true
  | some expected_digest =>
      let expected := asciiLower (stripPrefixOnce (trimAscii expected_digest) "sha256:")
      let actual := hexOfBytes (sha256 bytes)
      decide (actual = expected)

/-- The entry-selection loop of `process_downloaded_bytes` (lines 125-145):
walk the entries in stored order with the current default candidate `sel`;
skip directories, record the first non-directory entry as the default, and
return immediately on the first entry whose name ends with the artifact
name. -/
def select_entry (artifactName : String) : List ZipEntry → Option ZipEntry → Option ZipEntry
  | [], sel => sel
  | e :: rest, sel =>
    if e.is_dir then
      select_entry artifactName rest sel
    else
      let sel := if sel.isNone then some e else sel
      if endsWithStr e.name artifactName then some e
      else select_entry artifactName rest sel

/-- `fn process_downloaded_bytes(bytes, content_type, artifact, target_dir)`.
`sha256` abstracts the `sha2` crate; `zipOpen` abstracts
`zip::ZipArchive::new` plus entry enumeration (an `Err` models a payload the
zip crate rejects).  `File::create` and `std::io::copy` are modelled as
infallible, with the file contents tracked in the outcome. -/
def process_downloaded_bytes (sha256 : Bytes → Bytes)
    (zipOpen : Bytes → Except String (List ZipEntry))
    (bytes : Bytes) (content_type : Option String)
    (artifact : Artifact) (target_dir : String) : DlOutcome :=
  let out_path := target_dir ++ "/" ++ artifact.name
  if checksum_gate sha256 artifact bytes then
    -- `File::create(&out_path)` happens here, before format detection
    if isZipContentType content_type || is_zip_archive bytes then
      match zipOpen bytes with
      | .error msg => { result := .error (.zipOpen msg), file := some [], treatedAsArchive := true }
      | .ok entries =>
        if entries.isEmpty then
          { result := .error .emptyArchive, file := some [], treatedAsArchive := true }
        else
          match select_entry artifact.name entries none with
          | none =>
            { result := .error .noFileEntries, file := some [], treatedAsArchive := true }
          | some entry =>
            let written := entry.content.length
            if written = 0 then
              { result := .error .emptyZipEntry, file := some entry.content,
                treatedAsArchive := true }
            else if written ≠ entry.declaredSize then
              { result := .error .sizeMismatch, file := some entry.content,
                treatedAsArchive := true }
            else
              { result := .ok out_path, file := some entry.content, treatedAsArchive := true }
    else
      if bytes.length = 0 then
        { result := .error .emptyDownload, file := some bytes, treatedAsArchive := false }
      else
        { result := .ok out_path, file := some bytes, treatedAsArchive := false }
  else
    { result := .error (.checksumMismatch artifact.name), file := none,
      treatedAsArchive := false }

/-- An HTTP response as `htclient::get` hands it to `Download::download`. -/
structure HttpResponse where
  status : Nat
  contentType : Option String
  body : Bytes
  deriving Repr, DecidableEq

/-- `impl Download for Artifact` (download.rs lines 33-63), starting from the
response of the GET: re-validate the status through
`http::StatusCode::from_u16`, proceed into `process_downloaded_bytes` only on
`200 OK` (with the content-type header ASCII-lowercased), and otherwise fail
with the status code and the artifact's download URL. -/
def download_impl (sha256 : Bytes → Bytes)
    (zipOpen : Bytes → Except String (List ZipEntry))
    (resp : HttpResponse) (artifact : Artifact) (target_dir : String) : DlOutcome :=
  if 100 ≤ resp.status ∧ resp.status ≤ 999 then
    if resp.status = 200 then
      process_downloaded_bytes sha256 zipOpen resp.body
        (resp.contentType.map asciiLower) artifact target_dir
    else
      { result := .error (.statusNotOk resp.status artifact.download_url),
        file := none, treatedAsArchive := false }
  else
    { result := .error (.invalidStatus resp.status), file := none, treatedAsArchive := false }

/-! ## ChannelResolver and PackageSetBuilder (fvm/api/client.rs)

The GitHub API (`octocrab`) is abstracted as a record of lookup functions,
and `semver::Version::parse` followed by `Display` as a partial function on
the rendered text. -/

/-- The read-only slice of the GitHub release API the client uses. -/
structure GithubApi where
  /-- `releases().get_latest()` -/
  latest : Option Release
  /-- `releases().get_by_tag(tag)` -/
  byTag : String → Option Release
  /-- `get_content().path(path).r_ref(reff)`, already reduced to the decoded
  content of the first item (`none` models both a failed request and a
  missing/empty first item). -/
  content : String → String → Option String

/-- `Client::fetch_release_and_version` (client.rs lines 22-112).
`parseVer` abstracts `semver::Version::parse` composed with rendering the
parsed version back to text. -/
def fetch_release_and_version (gh : GithubApi) (parseVer : String → Option String) :
    Channel → Except String (Release × String)
  | .Stable =>
    match gh.latest with
    | none => .error "Unable to retrieve stable release"
    | some release =>
      match parseVer (trimStartMatchesV release.tag_name) with
      | none => .error "invalid semver"
      | some version => .ok (release, version)
  | .Tag ver =>
    match gh.byTag ("v" ++ ver) with
    | none => .error ("Unable to retrieve release for tag v" ++ ver)
    | some release => .ok (release, ver)
  | .Latest =>
    match gh.byTag "dev" with
    | none => .error "Unable to retrieve release for tag dev"
    | some release =>
      match gh.content "VERSION" release.tag_name with
      | none => .error "VERSION file for dev release is missing or empty"
      | some version_str =>
        match parseVer (trimAscii version_str) with
        | none => .error "Invalid version string in VERSION file for dev release"
        | some version => .ok (release, version)
  | .Other name =>
    match gh.byTag name with
    | none => .error ("Unable to retrieve release for tag " ++ name)
    | some release =>
      match parseVer (trimStartMatchesV release.tag_name) with
      | none => .error "invalid semver"
      | some version => .ok (release, version)

/-- The per-asset construction inside `fetch_package_set`: the artifact name
is the asset name with all trailing repetitions of `-{arch}.zip` removed
(`str::trim_end_matches`). -/
def mk_artifact (arch version : String) (asset : ReleaseAsset) : Artifact :=
  { name := trimEndMatchesStr asset.name ("-" ++ arch ++ ".zip")
    version := version
    download_url := asset.browser_download_url
    sha256_digest := asset.digest }

/-- The asset filter and map of `fetch_package_set` (client.rs lines 147-160):
keep the assets whose name ends with `{arch}.zip`. -/
def package_set_artifacts (assets : List ReleaseAsset) (arch version : String) :
    List Artifact :=
  (assets.filter (fun asset => endsWithStr asset.name (arch ++ ".zip"))).map
    (mk_artifact arch version)

/-- The error text of `fetch_package_set` when the filter comes up empty. -/
def noArtifactsMsg (tag arch : String) : String :=
  "Release \"" ++ tag ++ "\" does not have artifacts for architecture: \"" ++ arch ++ "\""

/-- `Client::fetch_package_set` (client.rs lines 144-176). -/
def fetch_package_set (gh : GithubApi) (parseVer : String → Option String)
    (channel : Channel) (arch : String) : Except String PackageSet :=
  match fetch_release_and_version gh parseVer channel with
  | .error e => .error e
  | .ok (release, version) =>
    let artifacts := package_set_artifacts release.assets arch version
    if artifacts.isEmpty then
      .error (noArtifactsMsg release.tag_name arch)
    else
      .ok { arch := arch, pkgset := version, artifacts := artifacts }

/-! ## UpdateManager (fluvio-version-manager/src/common/update_manager.rs) -/

/-- Outcome of `UpdateManager::download` up to the point where
`fvm_artifact.download(...)` would run: the value returned (the located
artifact on success), and whether the artifact's network download was ever
initiated. -/
structure UpdateDownloadOutcome where
  result : Except String Artifact
  downloadInvoked : Bool
  deriving Repr, DecidableEq

/-- `UpdateManager::download` (update_manager.rs lines 40-72), taking the
result of `client.fetch_package_set(&channel, TARGET)` as input: locate the
artifact named `fvm`, refuse to proceed when it carries no sha256 digest, and
only otherwise hand the artifact to `Download::download`. -/
def update_manager_download (pkgset : Except String PackageSet) (version : String) :
    UpdateDownloadOutcome :=
  match pkgset with
  | .error e => { result := .error e, downloadInvoked := false }
  | .ok ps =>
    match ps.artifacts.find? (fun a => decide (a.name = "fvm")) with
    | none =>
      { result := .error ("FVM artifact not found in package set for version " ++ version)
        downloadInvoked := false }
    | some fvm_artifact =>
      match fvm_artifact.sha256_digest with
      | none =>
        { result := .error
            ("Integrity verification unavailable for FVM artifact (missing sha256 digest) for version "
              ++ version ++ ". Please use a newer version of FVM to update.")
          downloadInvoked := false }
      | some _ => { result := .ok fvm_artifact, downloadInvoked := true }

/-! ## Spec-side definitions

These follow the wording of the specification (not the source); they are
compared against the source-derived definitions in refinement statements. -/

/-- What the spec and claim C1 say the expected digest is compared against:
an optional `sha256:` prefix removed and case ignored — with no mention of
whitespace trimming. -/
def specNormalizeDigest (d : String) : String :=
  asciiLower (stripPrefixOnce d "sha256:")

/-- Case-insensitive string comparison ("compare case-insensitively"). -/
def caseInsensitiveEq (a b : String) : Bool :=
  decide (asciiLower a = asciiLower b)

/-- `http::StatusCode::is_success`: the 2xx range, as claim C6 refers to a
"success status". -/
def isSuccessStatus (s : Nat) : Bool :=
  decide (200 ≤ s) && decide (s < 300)

/-- Models the claim's reading of suffix removal: remove one trailing
occurrence of the suffix if present (in contrast to the source's
`trim_end_matches`, which removes all of them). -/
def removeSuffixOnce (s suffix : String) : String :=
  if endsWithStr s suffix then ⟨s.data.take (s.data.length - suffix.data.length)⟩ else s

/-! ## Helper lemmas -/

theorem hexDigit_lower_fixed : ∀ n, n < 16 → asciiLowerChar (hexDigit n) = hexDigit n := by
  decide

theorem hexFlat_lower (bs : Bytes) :
    (bs.flatMap (fun b => [hexDigit (b.val / 16), hexDigit (b.val % 16)])).map asciiLowerChar
      = bs.flatMap (fun b => [hexDigit (b.val / 16), hexDigit (b.val % 16)]) := by
  induction bs with
  | nil => rfl
  | cons b rest ih =>
    have h1 : b.val / 16 < 16 := Nat.div_lt_of_lt_mul b.isLt
    have h2 : b.val % 16 < 16 := Nat.mod_lt _ (by norm_num)
    simp [List.flatMap_cons, ih, hexDigit_lower_fixed _ h1, hexDigit_lower_fixed _ h2]

/-- `format!("{:x}", ...)` output is already lowercase, so lowercasing it is
the identity. -/
theorem asciiLower_hexOfBytes (bs : Bytes) : asciiLower (hexOfBytes bs) = hexOfBytes bs :=
  congrArg String.mk (hexFlat_lower bs)

/-- After the fuel-bounded repeated strip with enough fuel, the (nonempty)
pattern is no longer a prefix of the result. -/
theorem stripRepPrefixFuel_pattern_cleared (pat : List Char) (hp : pat ≠ []) :
    ∀ fuel s, s.length ≤ fuel → pat.isPrefixOf (stripRepPrefixFuel pat fuel s) = false := by
  intro fuel
  induction fuel with
  | zero =>
    intro s hs
    have hnil : s = [] := List.eq_nil_of_length_eq_zero (Nat.le_zero.mp hs)
    subst hnil
    cases pat with
    | nil => exact absurd rfl hp
    | cons a l => rfl
  | succ n ih =>
    intro s hs
    unfold stripRepPrefixFuel
    by_cases h : pat ≠ [] ∧ pat.isPrefixOf s = true
    · rw [if_pos h]
      apply ih
      have hpre : pat <+: s := List.isPrefixOf_iff_prefix.mp h.2
      have hple : pat.length ≤ s.length := hpre.length_le
      have hpos : 0 < pat.length := List.length_pos.mpr hp
      have := List.length_drop pat.length s
      omega
    · rw [if_neg h]
      rcases Decidable.em (pat.isPrefixOf s = true) with htrue | hfalse
      · exact absurd ⟨hp, htrue⟩ h
      · exact Bool.not_eq_true _ ▸ eq_false_of_ne_true hfalse

/-- `trim_end_matches` leaves no trailing occurrence of a nonempty pattern. -/
theorem trimEndMatchesStr_not_endsWith (s pat : String) (hp : pat.data ≠ []) :
    endsWithStr (trimEndMatchesStr s pat) pat = false := by
  unfold endsWithStr trimEndMatchesStr List.isSuffixOf
  rw [List.reverse_reverse]
  apply stripRepPrefixFuel_pattern_cleared
  · simpa using hp
  · simp

/-- The entry-selection loop, characterized declaratively: the first
non-directory entry whose name ends with the artifact name wins; otherwise
the incoming default; otherwise the first non-directory entry. -/
theorem select_entry_characterization (name : String) (entries : List ZipEntry)
    (acc : Option ZipEntry) :
    select_entry name entries acc =
      match (entries.filter (fun e => !e.is_dir)).find? (fun e => endsWithStr e.name name) with
      | some e => some e
      | none =>
        match acc with
        | some d => some d
        | none => (entries.filter (fun e => !e.is_dir)).head? := by
  induction entries generalizing acc with
  | nil => cases acc <;> simp [select_entry]
  | cons e rest ih =>
    by_cases hd : e.is_dir
    · simp [select_entry, hd, List.filter_cons, ih]
    · by_cases hm : endsWithStr e.name name
      · simp [select_entry, hd, hm, List.filter_cons, List.find?]
      · cases acc with
        | none =>
          simp only [select_entry, hd, Bool.false_eq_true, if_false, Option.isNone_none,
            if_true, hm, List.filter_cons]
          rw [ih]
          simp [List.find?, hm, hd]
        | some d =>
          simp only [select_entry, hd, Bool.false_eq_true, if_false, Option.isNone_some,
            if_true, hm, List.filter_cons]
          rw [ih]
          simp [List.find?, hm, hd]

section ProcessBranches

variable (sha256 : Bytes → Bytes) (zipOpen : Bytes → Except String (List ZipEntry))
variable (bytes : Bytes) (content_type : Option String) (artifact : Artifact)
variable (target_dir : String)

theorem process_gate_fail (h : checksum_gate sha256 artifact bytes = false) :
    process_downloaded_bytes sha256 zipOpen bytes content_type artifact target_dir =
      { result := .error (.checksumMismatch artifact.name), file := none,
        treatedAsArchive := false } := by
  unfold process_downloaded_bytes
  simp [h]

theorem process_raw_path (hgate : checksum_gate sha256 artifact bytes = true)
    (hfmt : (isZipContentType content_type || is_zip_archive bytes) = false) :
    process_downloaded_bytes sha256 zipOpen bytes content_type artifact target_dir =
      if bytes.length = 0 then
        { result := .error .emptyDownload, file := some bytes, treatedAsArchive := false }
      else
        { result := .ok (target_dir ++ "/" ++ artifact.name), file := some bytes,
          treatedAsArchive := false } := by
  unfold process_downloaded_bytes
  simp [hgate, hfmt]

theorem process_zip_path (hgate : checksum_gate sha256 artifact bytes = true)
    (hfmt : (isZipContentType content_type || is_zip_archive bytes) = true)
    (entries : List ZipEntry) (hzo : zipOpen bytes = .ok entries) :
    process_downloaded_bytes sha256 zipOpen bytes content_type artifact target_dir =
      if entries.isEmpty then
        { result := .error .emptyArchive, file := some [], treatedAsArchive := true }
      else
        match select_entry artifact.name entries none with
        | none => { result := .error .noFileEntries, file := some [], treatedAsArchive := true }
        | some entry =>
          if entry.content.length = 0 then
            { result := .error .emptyZipEntry, file := some entry.content,
              treatedAsArchive := true }
          else if entry.content.length ≠ entry.declaredSize then
            { result := .error .sizeMismatch, file := some entry.content,
              treatedAsArchive := true }
          else
            { result := .ok (target_dir ++ "/" ++ artifact.name), file := some entry.content,
              treatedAsArchive := true } := by
  unfold process_downloaded_bytes
  simp [hgate, hfmt, hzo]

theorem process_zip_open_fail (hgate : checksum_gate sha256 artifact bytes = true)
    (hfmt : (isZipContentType content_type || is_zip_archive bytes) = true)
    (msg : String) (hzo : zipOpen bytes = .error msg) :
    process_downloaded_bytes sha256 zipOpen bytes content_type artifact target_dir =
      { result := .error (.zipOpen msg), file := some [], treatedAsArchive := true } := by
  unfold process_downloaded_bytes
  simp [hgate, hfmt, hzo]

theorem process_treatedAsArchive (hgate : checksum_gate sha256 artifact bytes = true) :
    (process_downloaded_bytes sha256 zipOpen bytes content_type artifact target_dir).treatedAsArchive
      = (isZipContentType content_type || is_zip_archive bytes) := by
  cases hfmt : isZipContentType content_type || is_zip_archive bytes with
  | false => rw [process_raw_path sha256 zipOpen bytes content_type artifact target_dir hgate hfmt]
             split <;> rfl
  | true =>
    cases hzo : zipOpen bytes with
    | error msg =>
      rw [process_zip_open_fail sha256 zipOpen bytes content_type artifact target_dir hgate hfmt
        msg hzo]
    | ok entries =>
      rw [process_zip_path sha256 zipOpen bytes content_type artifact target_dir hgate hfmt
        entries hzo]
      split
      · rfl
      · split <;> (try split) <;> (try split) <;> rfl

/-- Once the checksum gate passes, every branch of the processing has already
created the destination file. -/
theorem process_gate_pass_file_created
    (hgate : checksum_gate sha256 artifact bytes = true) :
    (process_downloaded_bytes sha256 zipOpen bytes content_type artifact target_dir).file.isSome
      = true := by
  cases hfmt : isZipContentType content_type || is_zip_archive bytes with
  | false => rw [process_raw_path sha256 zipOpen bytes content_type artifact target_dir hgate hfmt]
             split <;> rfl
  | true =>
    cases hzo : zipOpen bytes with
    | error msg =>
      rw [process_zip_open_fail sha256 zipOpen bytes content_type artifact target_dir hgate hfmt
        msg hzo]
      rfl
    | ok entries =>
      rw [process_zip_path sha256 zipOpen bytes content_type artifact target_dir hgate hfmt
        entries hzo]
      split
      · rfl
      · split <;> (try split) <;> (try split) <;> rfl

end ProcessBranches

/-- With a digest present, the source's gate accepts exactly when the hex of
the hash equals, case-insensitively, the trimmed and prefix-stripped expected
digest. -/
theorem checksum_gate_some_iff (sha256 : Bytes → Bytes) (bytes : Bytes) (artifact : Artifact)
    (d : String) (hd : artifact.sha256_digest = some d) :
    checksum_gate sha256 artifact bytes = true ↔
      caseInsensitiveEq (hexOfBytes (sha256 bytes))
        (stripPrefixOnce (trimAscii d) "sha256:") = true := by
  unfold checksum_gate caseInsensitiveEq
  rw [hd]
  simp only [decide_eq_true_eq, asciiLower_hexOfBytes]

/-- When the gate passes, no branch of the processing reports a checksum
mismatch. -/
theorem process_gate_pass_not_checksum (sha256 : Bytes → Bytes)
    (zipOpen : Bytes → Except String (List ZipEntry)) (bytes : Bytes)
    (content_type : Option String) (artifact : Artifact) (target_dir : String)
    (hgate : checksum_gate sha256 artifact bytes = true) (n : String) :
    (process_downloaded_bytes sha256 zipOpen bytes content_type artifact target_dir).result
      ≠ .error (.checksumMismatch n) := by
  cases hfmt : isZipContentType content_type || is_zip_archive bytes with
  | false =>
    rw [process_raw_path sha256 zipOpen bytes content_type artifact target_dir hgate hfmt]
    split <;> simp
  | true =>
    cases hzo : zipOpen bytes with
    | error msg =>
      rw [process_zip_open_fail sha256 zipOpen bytes content_type artifact target_dir hgate hfmt
        msg hzo]
      simp
    | ok entries =>
      rw [process_zip_path sha256 zipOpen bytes content_type artifact target_dir hgate hfmt
        entries hzo]
      split
      · simp
      · split
        · simp
        · split
          · simp
          · split <;> simp

/-! ## Claim C1 (corrected) -/

/-- C1, counterexample to the claim as stated: the code also *trims
surrounding whitespace* from the expected digest before comparing.  With the
expected digest `" 00"` and a body whose hash is `00`, the claim's comparison
(prefix removal and case folding only) deems the digests unequal and demands
a checksum failure, yet the download proceeds and succeeds. -/
theorem C1_counterexample :
    caseInsensitiveEq (hexOfBytes [0]) (specNormalizeDigest " 00") = false
    ∧ (process_downloaded_bytes (fun _ => ([0] : Bytes)) (fun _ => .error "unused") [1] none
        { name := "a", version := "0.0.0", download_url := "u", sha256_digest := some " 00" }
        "t").result = .ok "t/a" := by
  decide

/-- C1 (amended): for every artifact with a digest present, the gate compares
the SHA-256 hex of the entire undecoded body against the expected digest with
surrounding whitespace trimmed, an optional `sha256:` prefix removed, and
case ignored; it proceeds exactly when they are equal; on mismatch it fails
with an error whose text contains "checksum", before the destination file is
created and before any archive handling. -/
theorem C1_checksum_gate (sha256 : Bytes → Bytes)
    (zipOpen : Bytes → Except String (List ZipEntry)) (bytes : Bytes)
    (ct : Option String) (art : Artifact) (dir : String) (d : String)
    (hd : art.sha256_digest = some d) :
    (checksum_gate sha256 art bytes = true ↔
      caseInsensitiveEq (hexOfBytes (sha256 bytes))
        (stripPrefixOnce (trimAscii d) "sha256:") = true)
    ∧ (checksum_gate sha256 art bytes = false →
        process_downloaded_bytes sha256 zipOpen bytes ct art dir =
          { result := .error (.checksumMismatch art.name), file := none,
            treatedAsArchive := false }
        ∧ ∃ s1 s2, DlError.render (.checksumMismatch art.name) = s1 ++ "checksum" ++ s2)
    ∧ (checksum_gate sha256 art bytes = true →
        (process_downloaded_bytes sha256 zipOpen bytes ct art dir).file.isSome = true) := by
  refine ⟨checksum_gate_some_iff sha256 bytes art d hd, fun hfail => ⟨?_, ?_⟩, fun hpass => ?_⟩
  · exact process_gate_fail sha256 zipOpen bytes ct art dir hfail
  · exact ⟨"DANGER: Downloaded artifact ", " did not match for " ++ art.name, rfl⟩
  · exact process_gate_pass_file_created sha256 zipOpen bytes ct art dir hpass

/-- Witness for C1: the mismatch branch at a concrete input (the analogue of
the source's `fails_on_checksum_mismatch` test). -/
theorem C1_checksum_gate_witness :
    process_downloaded_bytes (fun _ => ([171] : Bytes)) (fun _ => .error "unused") [1]
      (some "application/octet-stream")
      { name := "foo", version := "0.0.0", download_url := "u",
        sha256_digest :=
          some "sha256:0000000000000000000000000000000000000000000000000000000000000000" }
      "t" =
      { result := .error (.checksumMismatch "foo"), file := none, treatedAsArchive := false } :=
  ((C1_checksum_gate (fun _ => ([171] : Bytes)) (fun _ => .error "unused") [1]
      (some "application/octet-stream") _ "t" _ rfl).2.1 (by decide)).1

/-! ## Claim C2 (corrected) -/

/-- C2, counterexample to the claim as stated: an asset named exactly
`x.zip` passes the `{arch}.zip` filter for `arch = "x"` but carries no
`-x.zip` suffix to remove, so the resulting artifact name still ends with the
`{arch}.zip` suffix used for filtering; and `trim_end_matches` removes *all*
trailing repetitions, so `a-x.zip-x.zip` becomes `a`, not the single-removal
`a-x.zip`. -/
theorem C2_counterexample :
    (package_set_artifacts [⟨"x.zip", "u1", none⟩, ⟨"a-x.zip-x.zip", "u2", none⟩]
        "x" "1.0.0").map Artifact.name = ["x.zip", "a"]
    ∧ endsWithStr "x.zip" ("x" ++ ".zip") = true
    ∧ removeSuffixOnce "a-x.zip-x.zip" "-x.zip" = "a-x.zip" := by
  decide

/-- C2 (amended): `fetch_package_set` keeps exactly the assets whose name
ends with `{arch}.zip`, and every resulting artifact's name is the asset name
with *all trailing repetitions* of `-{arch}.zip` removed; consequently no
resulting name ends with `-{arch}.zip` (though a name can still end with
`{arch}.zip` when the asset name does not use the dashed form). -/
theorem C2_package_set_names (assets : List ReleaseAsset) (arch version : String) :
    (∀ art, art ∈ package_set_artifacts assets arch version ↔
      ∃ asset, asset ∈ assets ∧ endsWithStr asset.name (arch ++ ".zip") = true
        ∧ art = mk_artifact arch version asset)
    ∧ (∀ asset, (mk_artifact arch version asset).name
        = trimEndMatchesStr asset.name ("-" ++ arch ++ ".zip"))
    ∧ (∀ art ∈ package_set_artifacts assets arch version,
        endsWithStr art.name ("-" ++ arch ++ ".zip") = false) := by
  have hpat : ("-" ++ arch ++ ".zip").data ≠ [] := by
    cases arch with
    | mk l => exact List.cons_ne_nil _ _
  refine ⟨?_, fun asset => rfl, ?_⟩
  · intro art
    unfold package_set_artifacts
    simp only [List.mem_map, List.mem_filter]
    constructor
    · rintro ⟨asset, ⟨hmem, hends⟩, hmk⟩
      exact ⟨asset, hmem, hends, hmk.symm⟩
    · rintro ⟨asset, hmem, hends, hmk⟩
      exact ⟨asset, ⟨hmem, hends⟩, hmk.symm⟩
  · intro art hart
    unfold package_set_artifacts at hart
    rcases List.mem_map.mp hart with ⟨asset, _, hmk⟩
    rw [← hmk]
    exact trimEndMatchesStr_not_endsWith asset.name _ hpat

/-- Witness for C2: a concrete two-asset release, checking membership, the
name construction, and suffix-freedom of the produced names. -/
theorem C2_package_set_names_witness :
    mk_artifact "x" "1.0.0" ⟨"a-x.zip-x.zip", "u2", none⟩
      ∈ package_set_artifacts [⟨"b", "u1", none⟩, ⟨"a-x.zip-x.zip", "u2", none⟩] "x" "1.0.0"
    ∧ endsWithStr (mk_artifact "x" "1.0.0" ⟨"a-x.zip-x.zip", "u2", none⟩).name
        ("-" ++ "x" ++ ".zip") = false :=
  ⟨((C2_package_set_names [⟨"b", "u1", none⟩, ⟨"a-x.zip-x.zip", "u2", none⟩] "x" "1.0.0").1
      _).mpr ⟨⟨"a-x.zip-x.zip", "u2", none⟩, by decide, by decide, rfl⟩,
    (C2_package_set_names [⟨"b", "u1", none⟩, ⟨"a-x.zip-x.zip", "u2", none⟩] "x" "1.0.0").2.2
      _ (((C2_package_set_names [⟨"b", "u1", none⟩, ⟨"a-x.zip-x.zip", "u2", none⟩] "x"
        "1.0.0").1 _).mpr ⟨⟨"a-x.zip-x.zip", "u2", none⟩, by decide, by decide, rfl⟩)⟩

/-! ## Claim C3 (confirmed) -/

/-- C3: whenever the artifact named `fvm` located in the fetched package set
carries no sha256 digest, the self-update aborts with the policy-violation
error and the artifact's download is never invoked. -/
theorem C3_digestless_no_download (pkgset : Except String PackageSet) (version : String)
    (ps : PackageSet) (a : Artifact)
    (hok : pkgset = .ok ps)
    (hfind : ps.artifacts.find? (fun a => decide (a.name = "fvm")) = some a)
    (hdig : a.sha256_digest = none) :
    (update_manager_download pkgset version).downloadInvoked = false
    ∧ (update_manager_download pkgset version).result =
        .error ("Integrity verification unavailable for FVM artifact (missing sha256 digest) for version "
          ++ version ++ ". Please use a newer version of FVM to update.") := by
  subst hok
  simp [update_manager_download, hfind, hdig]

/-- Witness for C3: a package set whose only `fvm` artifact has no digest. -/
theorem C3_digestless_no_download_witness :
    (update_manager_download
      (.ok { arch := "x86_64-unknown-linux-gnu", pkgset := "1.2.3",
             artifacts := [{ name := "fvm", version := "1.2.3", download_url := "u",
                             sha256_digest := none }] }) "1.2.3").downloadInvoked = false :=
  (C3_digestless_no_download _ "1.2.3"
    { arch := "x86_64-unknown-linux-gnu", pkgset := "1.2.3",
      artifacts := [{ name := "fvm", version := "1.2.3", download_url := "u",
                      sha256_digest := none }] }
    { name := "fvm", version := "1.2.3", download_url := "u", sha256_digest := none }
    rfl (by decide) rfl).1

/-! ## Claim C4 (confirmed) -/

/-- C4: the entry scan walks entries in stored order skipping directories,
keeps the first non-directory entry as the default candidate, and stops at
the first entry whose name ends with the artifact name (formalized by the
declarative characterization of `select_entry`); and whenever exactly one
non-directory entry's name ends with the artifact name, that entry is
selected and the destination file receives exactly its decompressed
content.  (In the uniqueness hypothesis, "entry" ranges over the
non-directory entries, the entries the claim's own scan description
considers.) -/
theorem C4_entry_selection (sha256 : Bytes → Bytes)
    (zipOpen : Bytes → Except String (List ZipEntry)) (bytes : Bytes)
    (ct : Option String) (art : Artifact) (dir : String)
    (entries : List ZipEntry) (e0 : ZipEntry) :
    (∀ (name : String) (es : List ZipEntry),
      select_entry name es none =
        match (es.filter (fun e => !e.is_dir)).find? (fun e => endsWithStr e.name name) with
        | some e => some e
        | none => (es.filter (fun e => !e.is_dir)).head?)
    ∧ (checksum_gate sha256 art bytes = true →
       (isZipContentType ct || is_zip_archive bytes) = true →
       zipOpen bytes = .ok entries →
       e0 ∈ entries → e0.is_dir = false → endsWithStr e0.name art.name = true →
       (∀ e ∈ entries, e.is_dir = false → endsWithStr e.name art.name = true → e = e0) →
       select_entry art.name entries none = some e0
       ∧ (process_downloaded_bytes sha256 zipOpen bytes ct art dir).file = some e0.content) := by
  constructor
  · intro name es
    exact select_entry_characterization name es none
  · intro hgate hfmt hzo hmem hnd hends huniq
    have he0f : e0 ∈ entries.filter (fun e => !e.is_dir) :=
      List.mem_filter.mpr ⟨hmem, by simp [hnd]⟩
    have hfind : (entries.filter (fun e => !e.is_dir)).find?
        (fun e => endsWithStr e.name art.name) = some e0 := by
      have hsome : ((entries.filter (fun e => !e.is_dir)).find?
          (fun e => endsWithStr e.name art.name)).isSome := by
        rw [List.find?_isSome]
        exact ⟨e0, he0f, hends⟩
      rcases Option.isSome_iff_exists.mp hsome with ⟨x, hx⟩
      have hxmem := List.mem_of_find?_eq_some hx
      have hxp := List.find?_some hx
      rcases List.mem_filter.mp hxmem with ⟨hxent, hxnd⟩
      have : x = e0 := huniq x hxent (by simpa using hxnd) hxp
      rw [hx, this]
    have hsel : select_entry art.name entries none = some e0 := by
      rw [select_entry_characterization, hfind]
    refine ⟨hsel, ?_⟩
    have hne : entries ≠ [] := by
      intro h
      rw [h] at hmem
      exact absurd hmem (List.not_mem_nil e0)
    rw [process_zip_path sha256 zipOpen bytes ct art dir hgate hfmt entries hzo]
    rw [if_neg (by simpa [List.isEmpty_iff] using hne), hsel]
    split
    · rename_i heq
      exact absurd heq (Option.some_ne_none e0)
    · rename_i entry heq
      injection heq with h
      subst h
      split
      · rfl
      · split <;> rfl

/-- Witness for C4: the analogue of the source's
`extracts_correct_entry_from_multi_file_zip` test — a two-entry archive
where only `bin/myartifact` matches. -/
theorem C4_entry_selection_witness :
    (process_downloaded_bytes (fun _ => ([0] : Bytes))
      (fun _ => .ok [⟨"bin/other", [1, 2], 2⟩, ⟨"bin/myartifact", [3, 4, 5], 3⟩])
      [80, 75, 3, 4] (some "application/zip")
      { name := "myartifact", version := "0.0.0", download_url := "u", sha256_digest := none }
      "t").file = some [3, 4, 5] :=
  ((C4_entry_selection (fun _ => ([0] : Bytes))
      (fun _ => .ok [⟨"bin/other", [1, 2], 2⟩, ⟨"bin/myartifact", [3, 4, 5], 3⟩])
      [80, 75, 3, 4] (some "application/zip")
      { name := "myartifact", version := "0.0.0", download_url := "u", sha256_digest := none }
      "t" [⟨"bin/other", [1, 2], 2⟩, ⟨"bin/myartifact", [3, 4, 5], 3⟩]
      ⟨"bin/myartifact", [3, 4, 5], 3⟩).2
    rfl (by decide) rfl (by decide) (by decide) (by decide) (by decide)).2

/-! ## Claim C5 (confirmed) -/

/-- C5: once a `200 OK` body passes the checksum gate, it is treated as a zip
archive if and only if the ASCII-lowercased content-type header contains the
substring "zip", or — regardless of header — the body has at least four bytes
and starts with `50 4B 03 04`. -/
theorem C5_format_detection (sha256 : Bytes → Bytes)
    (zipOpen : Bytes → Except String (List ZipEntry)) (resp : HttpResponse)
    (art : Artifact) (dir : String)
    (hst : resp.status = 200)
    (hgate : checksum_gate sha256 art resp.body = true) :
    (download_impl sha256 zipOpen resp art dir).treatedAsArchive = true ↔
      (∃ ct, resp.contentType = some ct ∧ containsSubstr (asciiLower ct) "zip" = true)
      ∨ (4 ≤ resp.body.length ∧ resp.body.take 4 = [80, 75, 3, 4]) := by
  have himpl : download_impl sha256 zipOpen resp art dir =
      process_downloaded_bytes sha256 zipOpen resp.body (resp.contentType.map asciiLower)
        art dir := by
    unfold download_impl
    rw [if_pos (by omega), if_pos hst]
  rw [himpl,
    process_treatedAsArchive sha256 zipOpen resp.body (resp.contentType.map asciiLower) art dir
      hgate]
  cases resp.contentType with
  | none => simp [isZipContentType, is_zip_archive]
  | some ct => simp [isZipContentType, is_zip_archive]

/-- Witness for C5: a body with a zip content-type header (in upper case) and
no magic bytes is still routed to the archive path. -/
theorem C5_format_detection_witness :
    (download_impl (fun _ => ([0] : Bytes)) (fun _ => .error "bad zip")
      { status := 200, contentType := some "Application/ZIP", body := [1, 2] }
      { name := "a", version := "0.0.0", download_url := "u", sha256_digest := none }
      "t").treatedAsArchive = true :=
  (C5_format_detection (fun _ => ([0] : Bytes)) (fun _ => .error "bad zip")
      { status := 200, contentType := some "Application/ZIP", body := [1, 2] }
      { name := "a", version := "0.0.0", download_url := "u", sha256_digest := none }
      "t" rfl (by decide)).mpr
    (Or.inl ⟨"Application/ZIP", rfl, by decide⟩)

/-! ## Claim C6 (corrected) -/

/-- C6, counterexample to the claim as stated: the source proceeds only on
`200 OK` (`status == StatusCode::OK`), not on every success status.  `204` is
a success status (2xx), yet the download fails with the status-code error
instead of processing the body. -/
theorem C6_counterexample :
    isSuccessStatus 204 = true
    ∧ (download_impl (fun _ => ([] : Bytes)) (fun _ => .error "unused")
        { status := 204, contentType := none, body := [1] }
        { name := "a", version := "0.0.0", download_url := "u", sha256_digest := none }
        "t").result = .error (.statusNotOk 204 "u") := by
  decide

/-- C6 (amended): for every response with a valid HTTP status code, the
download fails with an error carrying the status code and the artifact's
download URL exactly when the status is not `200 OK`; on `200` it proceeds to
process the response body (with the content-type header lowercased).  The
error text names both the code and the URL. -/
theorem C6_status_check (sha256 : Bytes → Bytes)
    (zipOpen : Bytes → Except String (List ZipEntry)) (resp : HttpResponse)
    (art : Artifact) (dir : String)
    (hlo : 100 ≤ resp.status) (hhi : resp.status ≤ 999) :
    (resp.status ≠ 200 →
      download_impl sha256 zipOpen resp art dir =
        { result := .error (.statusNotOk resp.status art.download_url), file := none,
          treatedAsArchive := false }
      ∧ ∃ s1 s2, DlError.render (.statusNotOk resp.status art.download_url)
          = s1 ++ toString resp.status ++ s2 ++ art.download_url)
    ∧ (resp.status = 200 →
      download_impl sha256 zipOpen resp art dir =
        process_downloaded_bytes sha256 zipOpen resp.body (resp.contentType.map asciiLower)
          art dir) := by
  constructor
  · intro hne
    constructor
    · unfold download_impl
      rw [if_pos ⟨hlo, hhi⟩, if_neg hne]
    · exact ⟨"Server responded with Status Code ", " for url ", rfl⟩
  · intro h200
    unfold download_impl
    rw [if_pos ⟨hlo, hhi⟩, if_pos h200]

/-- Witness for C6 (amended): a `404` fails with the code and URL. -/
theorem C6_status_check_witness :
    (download_impl (fun _ => ([] : Bytes)) (fun _ => .error "unused")
      { status := 404, contentType := none, body := [1] }
      { name := "a", version := "0.0.0", download_url := "http://x/y", sha256_digest := none }
      "t").result = .error (.statusNotOk 404 "http://x/y") := by
  rw [((C6_status_check (fun _ => ([] : Bytes)) (fun _ => .error "unused")
      { status := 404, contentType := none, body := [1] }
      { name := "a", version := "0.0.0", download_url := "http://x/y", sha256_digest := none }
      "t" (by decide) (by decide)).1 (by decide)).1]

/-! ## Claim C7 (confirmed) -/

/-- C7: every package set returned by `fetch_package_set` has a non-empty
artifact list, all of whose artifacts carry the version resolved for the
channel (the package set's own version); when the architecture filter yields
nothing, it instead fails with the error naming the release tag and the
requested architecture. -/
theorem C7_package_set_invariants (gh : GithubApi) (parseVer : String → Option String)
    (channel : Channel) (arch : String) :
    (∀ ps, fetch_package_set gh parseVer channel arch = .ok ps →
      ps.artifacts ≠ []
      ∧ (∀ a ∈ ps.artifacts, a.version = ps.pkgset)
      ∧ ∃ r, fetch_release_and_version gh parseVer channel = .ok (r, ps.pkgset))
    ∧ (∀ r v, fetch_release_and_version gh parseVer channel = .ok (r, v) →
      package_set_artifacts r.assets arch v = [] →
      fetch_package_set gh parseVer channel arch = .error (noArtifactsMsg r.tag_name arch)
      ∧ ∃ s1 s2 s3, noArtifactsMsg r.tag_name arch
          = s1 ++ r.tag_name ++ s2 ++ arch ++ s3) := by
  constructor
  · intro ps hok
    unfold fetch_package_set at hok
    cases hrv : fetch_release_and_version gh parseVer channel with
    | error e => rw [hrv] at hok; exact absurd hok (by simp)
    | ok rv =>
      obtain ⟨r, v⟩ := rv
      rw [hrv] at hok
      simp only at hok
      by_cases hemp : (package_set_artifacts r.assets arch v).isEmpty
      · rw [if_pos hemp] at hok
        exact absurd hok (by simp)
      · rw [if_neg hemp] at hok
        have hps : (⟨arch, v, package_set_artifacts r.assets arch v⟩ : PackageSet) = ps :=
          Except.ok.inj hok
        refine ⟨?_, ?_, ⟨r, ?_⟩⟩
        · rw [← hps]
          simpa [List.isEmpty_iff] using hemp
        · intro a ha
          rw [← hps] at ha ⊢
          simp only
          unfold package_set_artifacts at ha
          rcases List.mem_map.mp ha with ⟨asset, _, hmk⟩
          rw [← hmk]
          rfl
        · rw [← hps]
  · intro r v hrv hempty
    constructor
    · unfold fetch_package_set
      rw [hrv]
      simp only
      rw [if_pos (by simp [hempty])]
    · exact ⟨"Release \"", "\" does not have artifacts for architecture: \"", "\"", rfl⟩

/-- Witness for C7: a concrete channel resolution with one matching asset on
the ok side, and an empty filter on the error side (using two distinct
architectures against the same release). -/
theorem C7_package_set_invariants_witness :
    (fetch_package_set
        { latest := none,
          byTag := fun t => if t = "v1.2.3" then
              some ⟨"v1.2.3", [⟨"fluvio-aarch64-apple-darwin.zip", "u", none⟩]⟩
            else none,
          content := fun _ _ => none }
        (fun s => some s) (.Tag "1.2.3") "x86_64-unknown-linux-gnu")
      = .error (noArtifactsMsg "v1.2.3" "x86_64-unknown-linux-gnu") :=
  ((C7_package_set_invariants
      { latest := none,
        byTag := fun t => if t = "v1.2.3" then
            some ⟨"v1.2.3", [⟨"fluvio-aarch64-apple-darwin.zip", "u", none⟩]⟩
          else none,
        content := fun _ _ => none }
      (fun s => some s) (.Tag "1.2.3") "x86_64-unknown-linux-gnu").2
    ⟨"v1.2.3", [⟨"fluvio-aarch64-apple-darwin.zip", "u", none⟩]⟩ "1.2.3"
    (by decide) (by decide)).1

/-! ## Claim C8 (confirmed) -/

/-- C8: the corruption error cases of `process_downloaded_bytes`, read as the
source's ordered checks: a zip payload with zero entries fails with the
empty-archive error; a non-empty archive whose entries are all directories
fails with the no-file-entries error; a selected entry decompressing to zero
bytes fails with the empty-entry error; a selected entry whose (non-zero)
byte count differs from its declared uncompressed size fails with the
size-mismatch error; and on the non-archive path a zero-byte body fails with
the empty-download error. -/
theorem C8_error_cases (sha256 : Bytes → Bytes)
    (zipOpen : Bytes → Except String (List ZipEntry)) (bytes : Bytes)
    (ct : Option String) (art : Artifact) (dir : String)
    (hgate : checksum_gate sha256 art bytes = true) :
    ((isZipContentType ct || is_zip_archive bytes) = true → zipOpen bytes = .ok [] →
      (process_downloaded_bytes sha256 zipOpen bytes ct art dir).result
        = .error .emptyArchive)
    ∧ (∀ entries, (isZipContentType ct || is_zip_archive bytes) = true →
      zipOpen bytes = .ok entries → entries ≠ [] → (∀ e ∈ entries, e.is_dir = true) →
      (process_downloaded_bytes sha256 zipOpen bytes ct art dir).result
        = .error .noFileEntries)
    ∧ (∀ entries e, (isZipContentType ct || is_zip_archive bytes) = true →
      zipOpen bytes = .ok entries → entries ≠ [] →
      select_entry art.name entries none = some e → e.content = [] →
      (process_downloaded_bytes sha256 zipOpen bytes ct art dir).result
        = .error .emptyZipEntry)
    ∧ (∀ entries e, (isZipContentType ct || is_zip_archive bytes) = true →
      zipOpen bytes = .ok entries → entries ≠ [] →
      select_entry art.name entries none = some e → e.content ≠ [] →
      e.content.length ≠ e.declaredSize →
      (process_downloaded_bytes sha256 zipOpen bytes ct art dir).result
        = .error .sizeMismatch)
    ∧ ((isZipContentType ct || is_zip_archive bytes) = false → bytes = [] →
      (process_downloaded_bytes sha256 zipOpen bytes ct art dir).result
        = .error .emptyDownload) := by
  refine ⟨?_, ?_, ?_, ?_, ?_⟩
  · intro hfmt hzo
    rw [process_zip_path sha256 zipOpen bytes ct art dir hgate hfmt [] hzo]
    rfl
  · intro entries hfmt hzo hne halldir
    rw [process_zip_path sha256 zipOpen bytes ct art dir hgate hfmt entries hzo]
    rw [if_neg (by simpa [List.isEmpty_iff] using hne)]
    have hfilter : entries.filter (fun e => !e.is_dir) = [] :=
      List.filter_eq_nil_iff.mpr (fun e he => by simp [halldir e he])
    have hsel : select_entry art.name entries none = none := by
      rw [select_entry_characterization, hfilter]
      rfl
    rw [hsel]
  · intro entries e hfmt hzo hne hsel hcontent
    rw [process_zip_path sha256 zipOpen bytes ct art dir hgate hfmt entries hzo]
    rw [if_neg (by simpa [List.isEmpty_iff] using hne), hsel]
    simp [hcontent]
  · intro entries e hfmt hzo hne hsel hcontent hsize
    rw [process_zip_path sha256 zipOpen bytes ct art dir hgate hfmt entries hzo]
    rw [if_neg (by simpa [List.isEmpty_iff] using hne), hsel]
    have h0 : e.content.length ≠ 0 := by
      simpa [List.length_eq_zero] using hcontent
    simp [h0, hsize]
  · intro hfmt hzero
    rw [process_raw_path sha256 zipOpen bytes ct art dir hgate hfmt]
    rw [if_pos (by simp [hzero])]

/-- Witness for C8: the empty-archive case at a concrete zip payload (the
analogue of the source's `fails_on_empty_zip` test). -/
theorem C8_error_cases_witness :
    (process_downloaded_bytes (fun _ => ([0] : Bytes)) (fun _ => .ok [])
      [80, 75, 3, 4] (some "application/zip")
      { name := "something", version := "0.0.0", download_url := "u", sha256_digest := none }
      "t").result = .error .emptyArchive :=
  (C8_error_cases (fun _ => ([0] : Bytes)) (fun _ => .ok [])
      [80, 75, 3, 4] (some "application/zip")
      { name := "something", version := "0.0.0", download_url := "u", sha256_digest := none }
      "t" (by decide)).1 (by decide) rfl

/-! ## Claim C9 (confirmed) -/

/-- C9: resolving `Tag(v)` queries the release tagged `"v" ++ v`, and the
version in the result is exactly the caller-supplied `v` — it is never
re-derived by parsing the fetched release's tag (the conclusion holds for
every fetched release and every parse function, including one that rejects
everything). -/
theorem C9_tag_resolution (gh : GithubApi) (parseVer : String → Option String) (v : String) :
    (∀ r, gh.byTag ("v" ++ v) = some r →
      fetch_release_and_version gh parseVer (.Tag v) = .ok (r, v))
    ∧ (gh.byTag ("v" ++ v) = none →
      fetch_release_and_version gh parseVer (.Tag v)
        = .error ("Unable to retrieve release for tag v" ++ v)) := by
  constructor
  · intro r hr
    simp [fetch_release_and_version, hr]
  · intro hnone
    simp [fetch_release_and_version, hnone]

/-- Witness for C9: the fetched release's tag is unparseable junk and the
parse function rejects everything, yet resolution returns the caller's
version. -/
theorem C9_tag_resolution_witness :
    fetch_release_and_version
      { latest := none,
        byTag := fun t => if t = "v1.2.3" then some ⟨"weird-tag", []⟩ else none,
        content := fun _ _ => none }
      (fun _ => none) (.Tag "1.2.3") = .ok (⟨"weird-tag", []⟩, "1.2.3") :=
  (C9_tag_resolution
      { latest := none,
        byTag := fun t => if t = "v1.2.3" then some ⟨"weird-tag", []⟩ else none,
        content := fun _ _ => none }
      (fun _ => none) "1.2.3").1 ⟨"weird-tag", []⟩ (by decide)

/-! ## Claim C10 (confirmed) -/

/-- C10: failure atomicity of the destination file is asymmetric around the
checksum gate — a checksum-mismatch failure leaves the destination file
uncreated, while each failure diagnosed after the gate (empty archive, no
file entries, empty extracted entry, size mismatch, empty raw download)
happens with the destination file already created, so a file can remain on
disk even though the download returned an error. -/
theorem C10_failure_atomicity (sha256 : Bytes → Bytes)
    (zipOpen : Bytes → Except String (List ZipEntry)) (bytes : Bytes)
    (ct : Option String) (art : Artifact) (dir : String) :
    (∀ n, (process_downloaded_bytes sha256 zipOpen bytes ct art dir).result
        = .error (.checksumMismatch n) →
      (process_downloaded_bytes sha256 zipOpen bytes ct art dir).file = none)
    ∧ (∀ e, e = DlError.emptyArchive ∨ e = .noFileEntries ∨ e = .emptyZipEntry
        ∨ e = .sizeMismatch ∨ e = .emptyDownload →
      (process_downloaded_bytes sha256 zipOpen bytes ct art dir).result = .error e →
      (process_downloaded_bytes sha256 zipOpen bytes ct art dir).file.isSome = true) := by
  constructor
  · intro n hres
    cases hgate : checksum_gate sha256 art bytes with
    | false => rw [process_gate_fail sha256 zipOpen bytes ct art dir hgate]
    | true =>
      exact absurd hres
        (process_gate_pass_not_checksum sha256 zipOpen bytes ct art dir hgate n)
  · intro e he hres
    cases hgate : checksum_gate sha256 art bytes with
    | false =>
      rw [process_gate_fail sha256 zipOpen bytes ct art dir hgate] at hres
      rcases he with h | h | h | h | h <;> subst h <;> simp at hres
    | true => exact process_gate_pass_file_created sha256 zipOpen bytes ct art dir hgate

/-- Witness for C10: a non-empty raw body with a stale digest fails the gate
with no file created; the same body without a digest but with an empty-zip
payload fails after the gate with an (empty) file left behind. -/
theorem C10_failure_atomicity_witness :
    (process_downloaded_bytes (fun _ => ([171] : Bytes)) (fun _ => .ok [])
      [80, 75, 3, 4] none
      { name := "a", version := "0.0.0", download_url := "u", sha256_digest := some "00" }
      "t").file = none
    ∧ (process_downloaded_bytes (fun _ => ([171] : Bytes)) (fun _ => .ok [])
      [80, 75, 3, 4] none
      { name := "a", version := "0.0.0", download_url := "u", sha256_digest := none }
      "t").file.isSome = true :=
  ⟨(C10_failure_atomicity (fun _ => ([171] : Bytes)) (fun _ => .ok []) [80, 75, 3, 4] none
      { name := "a", version := "0.0.0", download_url := "u", sha256_digest := some "00" }
      "t").1 "a" (by decide),
    (C10_failure_atomicity (fun _ => ([171] : Bytes)) (fun _ => .ok []) [80, 75, 3, 4] none
      { name := "a", version := "0.0.0", download_url := "u", sha256_digest := none }
      "t").2 .emptyArchive (Or.inl rfl) (by decide)⟩

end Fluvio
